import Mathlib

set_option maxRecDepth 100000

/-!
Shallow embedding of `streamlit_app.py` (buffet sales chatbot).

The program routes user chat input either to a SQL path (keyword match →
query-catalog lookup or dynamically generated SQL, executed against a
warehouse) or to a general language-model answer path.  External services
(the BigQuery client and the two Gemini agents) are modelled as function
parameters whose behaviour is an `Except`: `.ok` for a normal return and
`.error` for a raised Python exception.  Python strings are Lean `String`s;
a BigQuery row is an insertion-ordered association list of column name to
value.
-/

namespace BuffetChatbot

/-- A Python runtime exception, as far as this program can observe one. -/
inductive PyErr where
  | nameError (name : String)
  | keyError (key : String)
  | valueError (msg : String)
  | warehouseError (msg : String)
  | modelError (msg : String)
  deriving DecidableEq, Repr

/-- A scalar cell value of a warehouse row (string or integer are the only
shapes the modelled scenarios need); `toStr` is Python `str()`. -/
inductive Value where
  | vstr (s : String)
  | vint (n : Int)
  deriving DecidableEq, Repr

def Value.toStr : Value → String
  | .vstr s => s
  | .vint n => toString n

/-- A warehouse row: insertion-ordered mapping from column name to value,
as produced by `dict(row)` on a BigQuery row. -/
abbrev Row := List (String × Value)

/-- Python `dict` key access `row[key]` on an association list. -/
def row_lookup : Row → String → Option Value
  | [], _ => none
  | (k, v) :: rest, key => if k = key then some v else row_lookup rest key

/-- Lowercase one character, as Python `str.lower` does on ASCII data
(all catalog questions and keywords are ASCII). -/
def py_lower (s : String) : String := ⟨s.data.map Char.toLower⟩

/-- Whether `needle` starts `hay` (character lists). -/
def startsWithChars : List Char → List Char → Bool
  | [], _ => true
  | _ :: _, [] => false
  | a :: as, b :: bs => a = b && startsWithChars as bs

/-- Whether `needle` occurs contiguously inside `hay` (character lists). -/
def containsChars (needle : List Char) : List Char → Bool
  | [] => needle.isEmpty
  | c :: rest => startsWithChars needle (c :: rest) || containsChars needle rest

/-- Python substring containment `needle in hay`. -/
def py_in (needle hay : String) : Bool := containsChars needle.data hay.data

/-- Python `str.strip()`: remove whitespace from both ends. -/
def py_strip (s : String) : String :=
  ⟨((s.data.dropWhile Char.isWhitespace).reverse.dropWhile Char.isWhitespace).reverse⟩

/-- Python `sep.join(xs)`. -/
def join_with (sep : String) : List String → String
  | [] => ""
  | [x] => x
  | x :: y :: ys => x ++ sep ++ join_with sep (y :: ys)

/-- Core of Python `str.format`: scan the template one character at a time,
replacing each simple placeholder (the text between a brace pair) by its
value from `mapping`; a placeholder with no entry raises `KeyError`, an
unterminated brace raises `ValueError`.  The first argument is `none` in
literal text and `some acc` (reversed name characters read so far) inside a
placeholder.  The catalog templates use only simple named placeholders, so
brace doubling and format specs do not arise. -/
def format_scan (mapping : List (String × String)) :
    Option (List Char) → List Char → Except PyErr (List Char)
  | none, [] => .ok []
  | none, c :: rest =>
    if c = '{' then format_scan mapping (some []) rest
    else (format_scan mapping none rest).map (fun out => c :: out)
  | some _, [] => .error (.valueError "Single open brace encountered in format string")
  | some acc, c :: rest =>
    if c = '}' then
      match mapping.find? (fun kv => kv.1 = String.mk acc.reverse) with
      | none => .error (.keyError (String.mk acc.reverse))
      | some kv => (format_scan mapping none rest).map (fun out => kv.2.data ++ out)
    else format_scan mapping (some (c :: acc)) rest

/-- Python `template.format(...)` with keyword arguments `mapping`. -/
def py_format (template : String) (mapping : List (String × String)) : Except PyErr String :=
  (format_scan mapping none template.data).map String.mk

/-- One value of the `query_guide` dictionary: a SQL string and a response
template. -/
structure QueryDetails where
  query : String
  response_template : String
  deriving DecidableEq, Repr

def no_results_message : String := "No results found for your query."

def apology_message : String := "Sorry, I couldn\x27t process your query. Please try again later."

def agent01_missing_message : String :=
  "Agent 01 is not configured. Please provide a valid Gemini API Key."

def agent02_missing_message : String :=
  "Agent 02 is not configured. Please provide a valid Gemini API Key."

def no_summary_message : String := "No sales summary available at the moment."

/-- Keywords that identify query-related tasks (line 166 of the source). -/
def query_related_keywords : List String := ["sales", "target", "growth", "customer", "branch"]

/-- The keyword containment test at line 169:
`any(keyword in user_input.lower() for keyword in query_related_keywords)`. -/
def is_data_question (user_input : String) : Bool :=
  query_related_keywords.any (fun keyword => py_in keyword (py_lower user_input))

def DAILY_SALES_AGGREGATED_TABLE_ID : String :=
  "golden-passkey-439311-c8.f2.Daily_Sales_Aggregated"

def MONTH_SALES_SUMMARY_TABLE_ID : String :=
  "golden-passkey-439311-c8.f2.month_sales_summary"

/-- Schema registry entry list (lines 18-25); each dict is an ordered list of
string key/value pairs, used only as prompt context. -/
def DAILY_SALES_AGGREGATED_SCHEMA : List (List (String × String)) :=
  [ [("table_id", DAILY_SALES_AGGREGATED_TABLE_ID)],
    [("field_name", "ETL_Date"), ("type", "TIMESTAMP"),
     ("description", "The date and time when the data was extracted, transformed, and loaded (ETL).")],
    [("field_name", "Branch_ID"), ("type", "STRING"),
     ("description", "Unique identifier for each branch.")],
    [("field_name", "Sales_Date"), ("type", "DATE"),
     ("description", "The date associated with the sales data.")],
    [("field_name", "Total_Daily_Sales"), ("type", "NUMERIC(18, 2)"),
     ("description", "Total daily sales amount for the branch.")],
    [("field_name", "Daily_Target"), ("type", "NUMERIC(18, 2)"),
     ("description", "The sales target set for the branch for the respective date.")] ]

/-- Schema registry entry list (lines 27-38). -/
def MONTH_SALES_SUMMARY_SCHEMA : List (List (String × String)) :=
  [ [("table_id", MONTH_SALES_SUMMARY_TABLE_ID)],
    [("field_name", "ETL_Date"), ("type", "TIMESTAMP"),
     ("description", "Date and time of ETL process.")],
    [("field_name", "Year"), ("type", "INTEGER"),
     ("description", "Year of the sales data.")],
    [("field_name", "Year_Month"), ("type", "STRING"),
     ("description", "Year and month in \x27YYYY-MM\x27 format.")],
    [("field_name", "Month_Name"), ("type", "STRING"),
     ("description", "Month name (e.g., January).")],
    [("field_name", "Branch_ID"), ("type", "STRING"),
     ("description", "Branch identifier.")],
    [("field_name", "Branch_Name"), ("type", "STRING"),
     ("description", "Branch name.")],
    [("field_name", "Total_Monthly_Sales"), ("type", "NUMERIC"),
     ("description", "Total sales for the branch in the month.")],
    [("field_name", "Monthly_Target"), ("type", "NUMERIC"),
     ("description", "Sales target for the branch for the month.")],
    [("field_name", "Number_Of_Customer"), ("type", "INTEGER"),
     ("description", "Number of customers served in the month.")] ]

/-- Render a JSON string (the schema text needs no escape sequences). -/
def json_string (s : String) : String := "\"" ++ s ++ "\""

/-- One dict of the schema list, as `json.dumps(..., indent=2)` prints it. -/
def json_object_indent2 (kvs : List (String × String)) : String :=
  "  \x7b\n" ++
    join_with ",\n" (kvs.map (fun kv => "    " ++ json_string kv.1 ++ ": " ++ json_string kv.2)) ++
  "\n  \x7d"

/-- `json.dumps(list_of_dicts, indent=2)`. -/
def json_dumps_indent2 (objs : List (List (String × String))) : String :=
  "[\n" ++ join_with ",\n" (objs.map json_object_indent2) ++ "\n]"

/-- The general info context blob (lines 372-382). -/
def general_info : String :=
  "\n**About Us**  \nWe are a small buffet restaurant steadily growing alongside the delicious flavors we serve.\nWe invite you to savor the taste and variety of dishes we have carefully prepared for you to enjoy during our 2-hour all-you-can-eat experience.  \n \n**Price**: Affordable and pocket-friendly, just 299 THB per person.  \n**Products**: In addition to our delightful and diverse shabu buffet, we also offer bubble tea, our signature secret broths, and exclusive sauces.  \n**Established**: Providing quality shabu dining since 2023.  \n**Branches**: 5 convenient locations.  \n**Operating Hours**: Open daily: 11:00 AM - 10:00 PM.\n"

/-- The canned fallback sentences (lines 384-390). -/
def fallback_responses : List String :=
  [ "Shabu is love, shabu is life! Let us know how we can make your dining experience better.",
    "Did you know our secret broth recipe has been passed down for generations?",
    "You’ll love our exclusive sauces! What else would you like to know?",
    "Bubble tea and shabu – a match made in heaven. Come visit us soon!",
    "Our 299 THB buffet is waiting for you! What other questions do you have?" ]

/-- The prompt built for Agent 02 in `handle_general_questions` (lines 141-150). -/
def general_question_prompt (user_input : String) : String :=
  "\n            You are an assistant for a shabu buffet restaurant. Use the following information to answer the user\x27s question:\n \n            " ++
  general_info ++
  "\n \n            User\x27s question:\n            \"" ++ user_input ++
  "\"\n \n            If you don\x27t know the answer, generate a random shabu buffet-related response.\n            "

/-- The prompt built for Agent 01 when no catalog entry matches (lines 195-209). -/
def dynamic_query_prompt (user_input : String) : String :=
  "\n                Based on the schema and query guide, generate a SQL query to address the user input:\n \n                **Schema Definitions:**\n                DAILY_SALES_AGGREGATED_SCHEMA:\n                " ++
  json_dumps_indent2 DAILY_SALES_AGGREGATED_SCHEMA ++
  "\n \n                MONTH_SALES_SUMMARY_SCHEMA:\n                " ++
  json_dumps_indent2 MONTH_SALES_SUMMARY_SCHEMA ++
  "\n \n                **User Input:**\n                \"" ++ user_input ++
  "\"\n \n                Respond with a valid SQL query without explaining it.\n                "

/-- The first `query_guide` assignment (lines 89-108).  The same global name
is reassigned at line 234, so by the time any chat input is processed this
one-entry catalog has been replaced by `query_guide` below; it is kept here
because the code registers it and claims refer to its entry. -/
def feb_highest_sales_details : QueryDetails :=
  { query := "\n            SELECT\n              f2.Branch_ID AS Branch_ID,\n              f2.Branch_Name AS Branch_Name,\n              SUM(f2.Total_Monthly_Sales) AS Sales\n            FROM\n              `golden-passkey-439311-c8.f2.month_sales_summary` AS f2\n            WHERE\n              f2.Year_Month = \x272024-02\x27\n            GROUP BY\n              f2.Branch_ID, f2.Branch_Name\n            ORDER BY\n              Sales DESC\n            LIMIT 1;\n        ",
    response_template := "The branch with the highest sales in February is {Branch_Name} (ID: {Branch_ID}) with total sales of {Sales} baht." }

def query_guide_v1 : List (String × QueryDetails) :=
  [("Which branch had the highest sales in February?", feb_highest_sales_details)]

/-- The second, effective `query_guide` assignment (lines 234-369), in
registration (insertion) order. -/
def query_guide : List (String × QueryDetails) :=
  [ ("Percentage growth comparison for this year vs. last year",
     { query := "\n            SELECT\n                f2_year_sales.Year AS Year,\n                f2_year_sales.Branch_ID AS Branch_ID,\n                f2_year_sales.Branch_Name AS Branch_Name,\n                f2_year_sales.Growth_year AS Growth_year\n            FROM\n                `golden-passkey-439311-c8.f2.year_sales_summary` AS f2_year_sales\n            WHERE\n                f2_year_sales.Year = 2024\n            GROUP BY\n                f2_year_sales.Year, f2_year_sales.Branch_ID, f2_year_sales.Branch_Name, f2_year_sales.Growth_year\n            ORDER BY\n                Growth_year DESC;\n        ",
       response_template := "Percentage growth comparison for 2024:\n{result}" }),
    ("What is the % growth for each branch?",
     { query := "\n            SELECT\n                f2_month_sales.Branch_ID AS Branch_ID,\n                f2_month_sales.Branch_Name AS Branch_Name,\n                f2_month_sales.Growth_year AS Percentage_Growth_year\n            FROM\n                `golden-passkey-439311-c8.f2.month_sales_summary` AS f2_month_sales\n            WHERE f2_month_sales.Year_Month = \x272024-02\x27\n            GROUP BY\n                f2_month_sales.Branch_ID, f2_month_sales.Branch_Name, f2_month_sales.Growth_year\n            ORDER BY\n                Percentage_Growth_year DESC;\n        ",
       response_template := "Here is the percentage growth for each branch in February 2024:\n{result}" }),
    ("Customer count changes this month",
     { query := "\n            WITH ranked_data AS (\n                SELECT\n                    f2_month_sales.Year_Month AS Year_Month,\n                    f2_month_sales.Branch_ID AS Branch_ID,\n                    f2_month_sales.Branch_Name AS Branch_Name,\n                    f2_month_sales.Number_Of_customer AS Number_Of_customer,\n                    LAG(f2_month_sales.Number_Of_customer) OVER (\n                        PARTITION BY f2_month_sales.Branch_ID\n                        ORDER BY f2_month_sales.Year_Month\n                    ) AS Last_Month_Customers\n                FROM\n                    `golden-passkey-439311-c8.f2.month_sales_summary` AS f2_month_sales\n            )\n            SELECT\n                Branch_ID,\n                Branch_Name,\n                Year_Month,\n                Number_Of_customer,\n                Last_Month_Customers,\n                Number_Of_customer - Last_Month_Customers AS Difference\n            FROM ranked_data\n            WHERE Year_Month = \x272024-02\x27\n            ORDER BY\n                Year_Month DESC;\n        ",
       response_template := "Here is the customer count change for February 2024:\n{result}" }),
    ("How much has the customer count increased this month?",
     { query := "\n            SELECT\n                daily_sales.Sales_Date AS Sales_Date,\n                daily_sales.Branch_ID AS Branch_ID,\n                daily_sales.Branch_Name AS Branch_Name,\n                daily_sales.Total_Daily_Sales AS Total_Daily_Sales\n            FROM `golden-passkey-439311-c8.f2.daily_sales_summary` AS daily_sales\n            WHERE DATE(daily_sales.Sales_Date) BETWEEN \x272024-02-01\x27 AND \x272024-02-29\x27\n            GROUP BY daily_sales.Branch_ID, daily_sales.Branch_Name, daily_sales.Sales_Date, daily_sales.Total_Daily_Sales;\n        ",
       response_template := "Customer count for February 2024 has increased as follows:\n{result}" }),
    ("What are today\x27s sales for this branch?",
     { query := "\n            SELECT\n                Branch_ID,\n                Branch_Name,\n                SUM(Total_Daily_Sales) AS Today_Sales\n            FROM `golden-passkey-439311-c8.f2.daily_sales_summary`\n            WHERE DATE(Sales_Date) = \x272024-02-29\x27\n            GROUP BY Branch_ID, Branch_Name;\n        ",
       response_template := "Today\x27s sales for February 29, 2024, are:\n{result}" }),
    ("End-of-month sales target overview",
     { query := "\n            SELECT\n                Branch_ID,\n                Branch_Name,\n                Total_Monthly_Sales AS Actual_Sales,\n                Monthly_Target AS Target_Sales,\n                Total_Monthly_Sales - Monthly_Target AS Diff\n            FROM `golden-passkey-439311-c8.f2.month_sales_summary`\n            WHERE Year_Month = \x272024-02\x27\n            ORDER BY Diff ASC\n            LIMIT 1;\n        ",
       response_template := "End-of-month sales target overview for February 2024:\n{result}" }),
    ("Will the overall sales reach the set target by the end of this month?",
     { query := "\n            SELECT\n                Year_Month,\n                Branch_ID,\n                Branch_Name,\n                Total_Monthly_Sales AS This_Month_Sales,\n                Last_Month_Sales,\n                Total_Monthly_Sales - Last_Month_Sales AS Diff\n            FROM `golden-passkey-439311-c8.f2.month_sales_summary`\n            WHERE Year_Month = \x272024-02\x27\n            ORDER BY Diff ASC\n            LIMIT 1;\n        ",
       response_template := "Sales progress for February 2024:\n{result}" }),
    ("Which branch is currently the furthest from its target?",
     { query := "\n            SELECT\n                Branch_ID,\n                Branch_Name,\n                Total_Monthly_Sales AS Actual_Sales,\n                Monthly_Target AS Target_Sales,\n                Total_Monthly_Sales - Monthly_Target AS Diff\n            FROM `golden-passkey-439311-c8.f2.month_sales_summary`\n            WHERE Year_Month = \x272024-02\x27\n            ORDER BY Diff ASC\n            LIMIT 1;\n        ",
       response_template := "The branch furthest from its target in February 2024 is {Branch_Name} (ID: {Branch_ID}) with actual sales of {Actual_Sales} baht, a target of {Target_Sales} baht, and a difference of {Diff} baht." }) ]

/-- The fixed daily-summary query in `display_sales_summary` (lines 113-122). -/
def daily_sales_summary_query : String :=
  "\n            SELECT f2.Branch_ID,\n                   f2.Branch_Name,\n                   f2.Total_Daily_Sales\n            FROM `golden-passkey-439311-c8.f2.daily_sales_summary` as f2\n            WHERE DATE(f2.Sales_date) = (\n                SELECT MAX(DATE(Sales_date))\n                FROM `golden-passkey-439311-c8.f2.daily_sales_summary`\n            );\n        "

/-- The environment of external collaborators: whether each Gemini agent was
configured (lines 56-70: `None` unless a key was supplied and `configure`
succeeded), and the observable behaviour of the BigQuery client and of each
agent's `generate_content` — `.ok` models a normal return (rows, or the
response `.text`), `.error` models a raised exception. -/
structure Ctx where
  agent01 : Bool
  agent02 : Bool
  warehouse : String → Except PyErr (List Row)
  agent01_generate : String → Except PyErr String
  agent02_generate : String → Except PyErr String

/-- `handle_general_questions` (lines 137-161).  Note: the module never
imports `random`, so both `return random.choice(fallback_responses)`
statements raise `NameError` at runtime; the one inside the `try` block is
caught by the handler, whose own `random.choice` call then raises the same
`NameError` past the function. -/
def handle_general_questions (ctx : Ctx) (user_input : String) : Except PyErr String :=
  if ctx.agent02 then
    match ctx.agent02_generate (general_question_prompt user_input) with
    | .ok rtext =>
      if py_strip rtext ≠ "" then .ok (py_strip rtext)
      else .error (.nameError "random")
    | .error _ => .error (.nameError "random")
  else
    .ok agent02_missing_message

/-- The `for question, details in query_guide.items(): if question.lower()
in user_input.lower(): ...` scan (lines 173-174): first entry, in
registration order, whose question is a case-insensitive substring of the
user input. -/
def query_guide_lookup : List (String × QueryDetails) → String → Option (String × QueryDetails)
  | [], _ => none
  | (question, details) :: rest, user_input =>
    if py_in (py_lower question) (py_lower user_input) then some (question, details)
    else query_guide_lookup rest user_input

/-- The newline-joined, comma-joined key/value rendering of a result list
(lines 186-188 and 219-221). -/
def generic_rows_rendering (result_dict : List Row) : String :=
  join_with "\n"
    (result_dict.map (fun row =>
      join_with ", " (row.map (fun kv => kv.1 ++ ": " ++ kv.2.toStr))))

/-- The keyword-argument mapping passed to `response_template.format`
(lines 185-190): the generic `result` rendering plus every column of the
first row spread as named values. -/
def template_mapping (result_dict : List Row) (row0 : Row) : List (String × String) :=
  ("result", generic_rows_rendering result_dict) :: row0.map (fun kv => (kv.1, kv.2.toStr))

/-- The catalog-matched branch of `categorize_task` (lines 175-192), run
inside the `try` block: any raised exception (warehouse failure, or the
`KeyError` from a template placeholder the first row does not provide) is
caught at lines 225-227 and converted to the apology string.  The second
component records the SQL strings submitted to the warehouse. -/
def run_catalog_entry (ctx : Ctx) (details : QueryDetails) : Except PyErr String × List String :=
  match ctx.warehouse details.query with
  | .error _ => (.ok apology_message, [details.query])
  | .ok result_dict =>
    match result_dict with
    | [] => (.ok no_results_message, [details.query])
    | row0 :: _ =>
      match py_format details.response_template (template_mapping result_dict row0) with
      | .ok text => (.ok text, [details.query])
      | .error _ => (.ok apology_message, [details.query])

/-- The dynamic-SQL branch of `categorize_task` (lines 194-223), also inside
the `try` block: ask Agent 01 for a query, execute its trimmed text
verbatim, and render rows generically; exceptions become the apology
string. -/
def run_dynamic_query (ctx : Ctx) (user_input : String) : Except PyErr String × List String :=
  match ctx.agent01_generate (dynamic_query_prompt user_input) with
  | .error _ => (.ok apology_message, [])
  | .ok rtext =>
    let dynamic_query := py_strip rtext
    match ctx.warehouse dynamic_query with
    | .error _ => (.ok apology_message, [dynamic_query])
    | .ok result_dict =>
      match result_dict with
      | [] => (.ok no_results_message, [dynamic_query])
      | _ :: _ => (.ok (generic_rows_rendering result_dict), [dynamic_query])

/-- `categorize_task` (lines 164-232), parameterised by the registered
catalog (the source reads the global `query_guide` at call time).  The
general-question branch at line 232 is outside the `try` block, so an
exception it raises propagates to the caller. -/
def categorize_task (guide : List (String × QueryDetails)) (ctx : Ctx) (user_input : String) :
    Except PyErr String × List String :=
  if is_data_question user_input then
    if ctx.agent01 then
      match query_guide_lookup guide user_input with
      | some (_, details) => run_catalog_entry ctx details
      | none => run_dynamic_query ctx user_input
    else
      (.ok agent01_missing_message, [])
  else
    (handle_general_questions ctx user_input, [])

/-- One formatted line of the daily summary (line 127); a missing column
would raise `KeyError`, observed as `none`. -/
def format_summary_row (row : Row) : Option String :=
  match row_lookup row "Branch_ID", row_lookup row "Branch_Name",
        row_lookup row "Total_Daily_Sales" with
  | some a, some b, some c =>
    some ("Branch " ++ a.toStr ++ " " ++ b.toStr ++ " total sale is " ++ c.toStr ++ " baht")
  | _, _, _ => none

/-- `display_sales_summary` (lines 111-134): run the fixed query and join
the per-row lines with newlines; any exception is caught and `None` is
returned. -/
def display_sales_summary (warehouse : String → Except PyErr (List Row)) : Option String :=
  match warehouse daily_sales_summary_query with
  | .error _ => none
  | .ok results =>
    match results.mapM format_summary_row with
    | none => none
    | some lines => some (join_with "\n" lines)

/-- The Python truthiness test `if summary:` at line 425 (`None` and the
empty string are falsy). -/
def summary_truthy : Option String → Bool
  | none => false
  | some s => s ≠ ""

/-- The text of the chat turn appended by the summary block
(lines 425-433). -/
def summary_turn_text (warehouse : String → Except PyErr (List Row)) : String :=
  match display_sales_summary warehouse with
  | some s => if s ≠ "" then "### Daily Sales Summary:\n\n" ++ s else no_summary_message
  | none => no_summary_message

/-- The per-session state (lines 82-86): the ordered chat turns, each a
(role, message) pair, and the summary-shown flag. -/
structure Session where
  chat_history : List (String × String)
  sales_summary_displayed : Bool
  deriving DecidableEq, Repr

def init_session : Session := { chat_history := [], sales_summary_displayed := false }

/-- The varying inputs of one Streamlit script run: whether the API key
field is non-empty, the external-call behaviours, and the chat-input text
(`none` when the user submitted nothing; the empty string is falsy for the
walrus test at line 441). -/
structure RunInput where
  gemini_api_key : Bool
  ctx : Ctx
  user_input : Option String

/-- The summary block of `display_chat_page` (lines 423-434): when the API
key field is filled and the summary has not been shown this session, append
one `assistant` turn (the summary or its substitute) and raise the flag. -/
def summary_step (warehouse : String → Except PyErr (List Row)) (gemini_api_key : Bool)
    (s : Session) : Session :=
  if gemini_api_key && !s.sales_summary_displayed then
    { chat_history := s.chat_history ++ [("assistant", summary_turn_text warehouse)],
      sales_summary_displayed := true }
  else s

/-- The chat-input block of `display_chat_page` (lines 441-451): a submitted
non-empty user message is appended, `categorize_task` is invoked and its
return value appended under the agent role — unless it raises, which aborts
the script run after the user turn was already appended. -/
def chat_input_step (guide : List (String × QueryDetails)) (ctx : Ctx) (s1 : Session) :
    Option String → Session
  | none => s1
  | some u =>
    if u = "" then s1
    else
      let s2 := { s1 with chat_history := s1.chat_history ++ [("user", u)] }
      match categorize_task guide ctx u with
      | (.ok response, _) =>
        let agent_role := if is_data_question u then "agent_01" else "agent_02"
        { s2 with chat_history := s2.chat_history ++ [(agent_role, response)] }
      | (.error _, _) => s2

/-- One run of `display_chat_page` (lines 393-451) over the session state:
the summary block, then the chat-input block. -/
def display_chat_page (guide : List (String × QueryDetails)) (s : Session) (inp : RunInput) :
    Session :=
  chat_input_step guide inp.ctx (summary_step inp.ctx.warehouse inp.gemini_api_key s)
    inp.user_input

/-- How many turns of a history were appended by the summary block: it is
the only code that appends under the role `assistant` (user turns use
`user`, router responses use `agent_01`/`agent_02`). -/
def summary_turn_count (history : List (String × String)) : Nat :=
  (history.filter (fun turn => turn.1 = "assistant")).length

theorem startsWithChars_iff (n h : List Char) : startsWithChars n h = true ↔ n <+: h := by
  induction n generalizing h with
  | nil => simp [startsWithChars]
  | cons a as ih =>
    cases h with
    | nil => simp [startsWithChars]
    | cons b bs => simp [startsWithChars, List.cons_prefix_cons, ih]

/-- The Boolean substring test agrees with contiguous-sublist containment,
so `py_in` is exactly Python `in` on strings. -/
theorem containsChars_iff (n h : List Char) : containsChars n h = true ↔ n <:+: h := by
  induction h with
  | nil =>
    simp only [containsChars, List.isEmpty_iff]
    constructor
    · intro hn; simp [hn]
    · intro hn; exact List.eq_nil_of_infix_nil hn
  | cons c t ih =>
    simp [containsChars, startsWithChars_iff, ih, List.infix_cons_iff]

theorem py_in_iff (needle hay : String) :
    py_in needle hay = true ↔ needle.data <:+: hay.data := containsChars_iff _ _

theorem query_guide_lookup_eq_none_iff (guide : List (String × QueryDetails)) (u : String) :
    query_guide_lookup guide u = none ↔
      ∀ e ∈ guide, py_in (py_lower e.1) (py_lower u) = false := by
  induction guide with
  | nil => simp [query_guide_lookup]
  | cons e rest ih =>
    obtain ⟨q, d⟩ := e
    by_cases hq : py_in (py_lower q) (py_lower u) = true
    · simp [query_guide_lookup, hq]
    · simp only [Bool.not_eq_true] at hq
      simp [query_guide_lookup, hq, ih]

theorem query_guide_lookup_first (u : String) (pre : List (String × QueryDetails))
    (entry : String × QueryDetails) (post : List (String × QueryDetails))
    (hpre : ∀ e ∈ pre, py_in (py_lower e.1) (py_lower u) = false)
    (hentry : py_in (py_lower entry.1) (py_lower u) = true) :
    query_guide_lookup (pre ++ entry :: post) u = some entry := by
  induction pre with
  | nil =>
    obtain ⟨q, d⟩ := entry
    simp only [List.nil_append, query_guide_lookup]
    simp only at hentry
    simp [hentry]
  | cons e rest ih =>
    obtain ⟨q, d⟩ := e
    have hq := hpre (q, d) (by simp)
    simp only at hq
    simp only [List.cons_append, query_guide_lookup, hq]
    simp only [Bool.false_eq_true, if_false]
    exact ih (fun e he => hpre e (by simp [he]))

theorem summary_turn_count_append_one (h : List (String × String)) (t : String × String) :
    summary_turn_count (h ++ [t]) =
      summary_turn_count h + (if t.1 = "assistant" then 1 else 0) := by
  by_cases ht : t.1 = "assistant" <;>
    simp [summary_turn_count, List.filter_append, List.filter, ht]

/-- The session invariant behind the at-most-once summary property: while
the flag is down no summary turn exists, and there is never more than
one. -/
def SummaryInv (s : Session) : Prop :=
  (s.sales_summary_displayed = false → summary_turn_count s.chat_history = 0) ∧
  summary_turn_count s.chat_history ≤ 1

theorem summary_turn_count_append_no_assistant (h tail : List (String × String))
    (ht : ∀ t ∈ tail, t.1 ≠ "assistant") :
    summary_turn_count (h ++ tail) = summary_turn_count h := by
  unfold summary_turn_count
  rw [List.filter_append]
  have : tail.filter (fun turn => turn.1 = "assistant") = [] := by
    rw [List.filter_eq_nil_iff]
    intro t htl
    simpa using ht t htl
  simp [this]

/-- The chat-input block never appends a turn under the role `assistant`
and leaves the summary flag alone. -/
theorem chat_input_step_shape (guide : List (String × QueryDetails)) (ctx : Ctx)
    (s1 : Session) (ui : Option String) :
    (∃ tail, (chat_input_step guide ctx s1 ui).chat_history = s1.chat_history ++ tail ∧
      ∀ t ∈ tail, t.1 ≠ "assistant") ∧
    (chat_input_step guide ctx s1 ui).sales_summary_displayed =
      s1.sales_summary_displayed := by
  cases ui with
  | none => exact ⟨⟨[], by simp [chat_input_step], by simp⟩, rfl⟩
  | some u =>
    by_cases hue : u = ""
    · refine ⟨⟨[], ?_, by simp⟩, ?_⟩ <;> simp [chat_input_step, hue]
    · cases hr : categorize_task guide ctx u with
      | mk res trace =>
        cases res with
        | error e =>
          refine ⟨⟨[("user", u)], ?_, ?_⟩, ?_⟩ <;> simp [chat_input_step, hue, hr]
        | ok response =>
          refine ⟨⟨[("user", u),
              (if is_data_question u then "agent_01" else "agent_02", response)], ?_, ?_⟩, ?_⟩
          · simp [chat_input_step, hue, hr]
          · intro t htl
            rcases List.mem_cons.mp htl with h | htl2
            · subst h; dsimp only; decide
            · rcases List.mem_cons.mp htl2 with h | h3
              · subst h; dsimp only; split <;> decide
              · simp at h3
          · simp [chat_input_step, hue, hr]

/-- The summary block either leaves the session alone or, when the flag is
down, appends exactly one `assistant` turn and raises the flag. -/
theorem summary_step_shape (warehouse : String → Except PyErr (List Row))
    (api : Bool) (s : Session) :
    summary_step warehouse api s = s ∨
    (s.sales_summary_displayed = false ∧
      summary_step warehouse api s =
        { chat_history := s.chat_history ++ [("assistant", summary_turn_text warehouse)],
          sales_summary_displayed := true }) := by
  unfold summary_step
  by_cases hc : (api && !s.sales_summary_displayed) = true
  · right
    refine ⟨?_, by rw [if_pos hc]⟩
    rcases Bool.and_eq_true _ _ |>.mp hc with ⟨_, hn⟩
    simpa using hn
  · left
    rw [if_neg hc]

theorem display_chat_page_preserves_inv (guide : List (String × QueryDetails))
    (s : Session) (inp : RunInput) (hs : SummaryInv s) :
    SummaryInv (display_chat_page guide s inp) := by
  obtain ⟨h0, h1⟩ := hs
  have hinv1 : SummaryInv (summary_step inp.ctx.warehouse inp.gemini_api_key s) := by
    rcases summary_step_shape inp.ctx.warehouse inp.gemini_api_key s with heq | ⟨hflag, heq⟩
    · rw [heq]; exact ⟨h0, h1⟩
    · rw [heq]
      constructor
      · intro hcontra; simp at hcontra
      · simp [summary_turn_count_append_one, h0 hflag]
  obtain ⟨g0, g1⟩ := hinv1
  obtain ⟨⟨tail, htail, hroles⟩, hflageq⟩ :=
    chat_input_step_shape guide inp.ctx (summary_step inp.ctx.warehouse inp.gemini_api_key s)
      inp.user_input
  have hcount : summary_turn_count (display_chat_page guide s inp).chat_history =
      summary_turn_count (summary_step inp.ctx.warehouse inp.gemini_api_key s).chat_history := by
    unfold display_chat_page
    rw [htail]
    exact summary_turn_count_append_no_assistant _ _ hroles
  constructor
  · intro hflag
    rw [hcount]
    apply g0
    rw [← hflageq]
    exact hflag
  · rw [hcount]; exact g1

theorem foldl_preserves_inv (guide : List (String × QueryDetails))
    (runs : List RunInput) (s : Session) (hs : SummaryInv s) :
    SummaryInv (runs.foldl (display_chat_page guide) s) := by
  induction runs generalizing s with
  | nil => exact hs
  | cons r rest ih =>
    exact ih _ (display_chat_page_preserves_inv guide s r hs)

/-- C1: on a data question (with Agent 01 configured, so that the lookup is
reached), the Query Catalog scan iterates entries in registration order and
selects the first entry whose canonical question, lowercased, is a
substring of the lowercased user text; when no entry's canonical question
is contained in the user text the lookup yields no entry and
`categorize_task` takes the dynamic-SQL path. -/
theorem categorize_task_catalog_lookup_policy
    (guide : List (String × QueryDetails)) (ctx : Ctx) (user_input : String)
    (hk : is_data_question user_input = true) (ha : ctx.agent01 = true) :
    (∀ pre entry post, guide = pre ++ entry :: post →
      py_in (py_lower entry.1) (py_lower user_input) = true →
      (∀ e ∈ pre, py_in (py_lower e.1) (py_lower user_input) = false) →
      query_guide_lookup guide user_input = some entry ∧
        categorize_task guide ctx user_input = run_catalog_entry ctx entry.2) ∧
    ((∀ e ∈ guide, py_in (py_lower e.1) (py_lower user_input) = false) →
      query_guide_lookup guide user_input = none ∧
        categorize_task guide ctx user_input = run_dynamic_query ctx user_input) := by
  constructor
  · intro pre entry post hsplit hentry hpre
    have hlook : query_guide_lookup guide user_input = some entry := by
      rw [hsplit]
      exact query_guide_lookup_first user_input pre entry post hpre hentry
    refine ⟨hlook, ?_⟩
    obtain ⟨q, d⟩ := entry
    simp [categorize_task, hk, ha, hlook]
  · intro hnone
    have hlook : query_guide_lookup guide user_input = none :=
      (query_guide_lookup_eq_none_iff guide user_input).mpr hnone
    refine ⟨hlook, ?_⟩
    simp [categorize_task, hk, ha, hlook]

theorem categorize_task_catalog_lookup_policy_witness :
    query_guide_lookup query_guide "sales please" = none ∧
    categorize_task query_guide
        ⟨true, true, fun _ => .ok [], fun _ => .ok "SELECT 1", fun _ => .ok ""⟩
        "sales please" =
      run_dynamic_query
        ⟨true, true, fun _ => .ok [], fun _ => .ok "SELECT 1", fun _ => .ok ""⟩
        "sales please" :=
  (categorize_task_catalog_lookup_policy query_guide
    ⟨true, true, fun _ => .ok [], fun _ => .ok "SELECT 1", fun _ => .ok ""⟩
    "sales please" (by decide) rfl).2 (by decide)

/-- C2: when the lowercased user text contains none of the five routing
keywords, `categorize_task` returns the General-Answer path's result and
submits no SQL query to the warehouse (the trace of executed queries is
empty, and the general path has no access to the warehouse at all). -/
theorem no_keyword_takes_general_path
    (guide : List (String × QueryDetails)) (ctx : Ctx) (user_input : String)
    (h : ∀ k ∈ query_related_keywords, py_in k (py_lower user_input) = false) :
    categorize_task guide ctx user_input = (handle_general_questions ctx user_input, []) := by
  have hk : is_data_question user_input = false := by
    unfold is_data_question
    rw [List.any_eq_false]
    intro k hkmem
    simp [h k hkmem]
  simp [categorize_task, hk]

theorem no_keyword_takes_general_path_witness :
    categorize_task query_guide
        ⟨true, true, fun _ => .ok [], fun _ => .ok "", fun _ => .ok "We open at 11 AM."⟩
        "hello, what are your opening hours?" =
      (handle_general_questions
        ⟨true, true, fun _ => .ok [], fun _ => .ok "", fun _ => .ok "We open at 11 AM."⟩
        "hello, what are your opening hours?", []) :=
  no_keyword_takes_general_path query_guide
    ⟨true, true, fun _ => .ok [], fun _ => .ok "", fun _ => .ok "We open at 11 AM."⟩
    "hello, what are your opening hours?" (by decide)

/-- C10: with Agent 01 unconfigured (no model credential), every data
question — the witness uses the exact canonical question of the registered
catalog entry, whose answer would need no model call — returns the fixed
"Agent 01 is not configured" string with an empty warehouse-query trace. -/
theorem agent01_missing_blocks_data_questions
    (guide : List (String × QueryDetails)) (ctx : Ctx) (user_input : String)
    (hk : is_data_question user_input = true) (ha : ctx.agent01 = false) :
    categorize_task guide ctx user_input = (.ok agent01_missing_message, []) := by
  simp [categorize_task, hk, ha]

theorem agent01_missing_blocks_data_questions_witness :
    categorize_task query_guide_v1
        ⟨false, false, fun _ => .ok [], fun _ => .ok "", fun _ => .ok ""⟩
        "Which branch had the highest sales in February?" =
      (.ok agent01_missing_message, []) :=
  agent01_missing_blocks_data_questions query_guide_v1
    ⟨false, false, fun _ => .ok [], fun _ => .ok "", fun _ => .ok ""⟩
    "Which branch had the highest sales in February?" (by decide) rfl

/-- C5 (code bug): the catalog entry whose canonical question is "Which
branch had the highest sales in February?" is registered by the line-89
`query_guide` assignment, but the whole global is reassigned at line 234
before any input is routed, so the entry is dead at call time.  The
scenario input matches the shadowed entry yet no entry of the effective
catalog, `categorize_task` takes the dynamic-SQL path, and with the
scenario's warehouse row it returns the generic comma-joined rendering —
never the templated sentence the claim requires. -/
theorem highest_sales_scenario_entry_shadowed :
    query_guide_lookup query_guide_v1
        "Which branch had the highest sales in February? Please tell me" =
      some ("Which branch had the highest sales in February?", feb_highest_sales_details) ∧
    query_guide_lookup query_guide
        "Which branch had the highest sales in February? Please tell me" = none ∧
    (categorize_task query_guide
        ⟨true, true,
         fun _ => .ok [[("Branch_ID", Value.vstr "B01"), ("Branch_Name", Value.vstr "Silom"),
                        ("Sales", Value.vint 150000)]],
         fun _ => .ok "SELECT 1", fun _ => .ok ""⟩
        "Which branch had the highest sales in February? Please tell me").1 =
      .ok "Branch_ID: B01, Branch_Name: Silom, Sales: 150000" ∧
    ("Branch_ID: B01, Branch_Name: Silom, Sales: 150000" : String) ≠
      "The branch with the highest sales in February is Silom (ID: B01) with total sales of 150000 baht." :=
  ⟨rfl, rfl, rfl, by decide⟩

/-- C6 counterexample: a zero-row warehouse result on the daily-summary path
yields the chat turn "No sales summary available at the moment.", not the
literal "No results found for your query." the claim requires of every
query path. -/
theorem daily_summary_zero_rows_counterexample :
    (display_chat_page query_guide init_session
        ⟨true, ⟨true, true, fun _ => .ok [], fun _ => .ok "", fun _ => .ok ""⟩, none⟩).chat_history =
      [("assistant", no_summary_message)] ∧
    no_summary_message ≠ no_results_message := ⟨rfl, by decide⟩

/-- C6 amended: a zero-row warehouse result on the two `categorize_task`
query paths (catalog-matched SQL and dynamic SQL) yields exactly "No
results found for your query.", while the daily-summary path renders the
"No sales summary available at the moment." substitute instead. -/
theorem zero_row_results_messages
    (guide : List (String × QueryDetails)) (ctx : Ctx) (user_input : String)
    (hw : ∀ sql, ctx.warehouse sql = .ok [])
    (hk : is_data_question user_input = true) (ha : ctx.agent01 = true)
    (hlm : ∃ t, ctx.agent01_generate (dynamic_query_prompt user_input) = .ok t) :
    (categorize_task guide ctx user_input).1 = .ok no_results_message ∧
    summary_turn_text ctx.warehouse = no_summary_message := by
  constructor
  · cases hlook : query_guide_lookup guide user_input with
    | some entry =>
      obtain ⟨q, d⟩ := entry
      simp only [categorize_task, hk, ha, if_true, hlook]
      unfold run_catalog_entry
      rw [hw]
    | none =>
      obtain ⟨t, ht⟩ := hlm
      simp only [categorize_task, hk, ha, if_true, hlook]
      unfold run_dynamic_query
      rw [ht]
      dsimp only
      rw [hw]
  · unfold summary_turn_text display_sales_summary
    rw [hw]
    rfl

theorem zero_row_results_messages_witness :
    (categorize_task query_guide
        ⟨true, true, fun _ => .ok [], fun _ => .ok "SELECT 1", fun _ => .ok ""⟩
        "branch performance").1 = .ok no_results_message ∧
    summary_turn_text (Ctx.warehouse
        ⟨true, true, fun _ => .ok [], fun _ => .ok "SELECT 1", fun _ => .ok ""⟩) =
      no_summary_message :=
  zero_row_results_messages query_guide
    ⟨true, true, fun _ => .ok [], fun _ => .ok "SELECT 1", fun _ => .ok ""⟩
    "branch performance" (fun _ => rfl) (by decide) rfl ⟨"SELECT 1", rfl⟩

/-- C8 counterexample: a catalog-matched question whose template references
`Actual_Sales`, absent from the returned row, makes the router return the
fixed apology string — not the generic comma-joined row rendering the claim
names as the fallback output. -/
theorem template_missing_field_counterexample :
    (categorize_task query_guide
        ⟨true, true,
         fun _ => .ok [[("Branch_ID", Value.vstr "B01"), ("Branch_Name", Value.vstr "Silom")]],
         fun _ => .ok "", fun _ => .ok ""⟩
        "Which branch is currently the furthest from its target?").1 = .ok apology_message ∧
    apology_message ≠
      generic_rows_rendering [[("Branch_ID", Value.vstr "B01"),
                               ("Branch_Name", Value.vstr "Silom")]] := ⟨rfl, by decide⟩

/-- C8 amended: when a catalog-matched question's template references a
placeholder the first result row does not provide, the `KeyError` raised by
the formatting call is caught by the generic handler (no distinct
FormatError exists), the session does not crash, and the fixed apology
string — not the generic row rendering — is returned. -/
theorem catalog_format_failure_returns_apology
    (guide : List (String × QueryDetails)) (ctx : Ctx) (user_input : String)
    {question : String} {details : QueryDetails} {row0 : Row} {rest : List Row}
    (hk : is_data_question user_input = true) (ha : ctx.agent01 = true)
    (hl : query_guide_lookup guide user_input = some (question, details))
    (hw : ctx.warehouse details.query = .ok (row0 :: rest))
    (hf : ∃ e, py_format details.response_template
        (template_mapping (row0 :: rest) row0) = .error e) :
    (categorize_task guide ctx user_input).1 = .ok apology_message := by
  obtain ⟨e, he⟩ := hf
  simp only [categorize_task, hk, ha, if_true, hl]
  unfold run_catalog_entry
  rw [hw]
  dsimp only
  rw [he]

theorem catalog_format_failure_returns_apology_witness :
    (categorize_task query_guide
        ⟨true, true,
         fun _ => .ok [[("Branch_ID", Value.vstr "B05"), ("Branch_Name", Value.vstr "Asoke")]],
         fun _ => .ok "", fun _ => .ok ""⟩
        "which branch is currently the furthest from its target? thanks").1 =
      .ok apology_message :=
  catalog_format_failure_returns_apology query_guide
    ⟨true, true,
     fun _ => .ok [[("Branch_ID", Value.vstr "B05"), ("Branch_Name", Value.vstr "Asoke")]],
     fun _ => .ok "", fun _ => .ok ""⟩
    "which branch is currently the furthest from its target? thanks"
    (by decide) rfl rfl rfl ⟨.keyError "Actual_Sales", rfl⟩

/-- C3 (code bug): the module never imports `random`, so on the
General-Answer path a failing model call makes the fallback
`random.choice(fallback_responses)` raise `NameError`, which propagates out
of the router instead of being converted to a returned string. -/
theorem general_path_exception_escapes_router :
    categorize_task query_guide
        ⟨true, true, fun _ => .ok [], fun _ => .ok "",
         fun _ => .error (.modelError "model down")⟩
        "hello" =
      (.error (.nameError "random"), []) := rfl

/-- C4 (code bug): with a model that raises on every call — or returns a
response that is empty after stripping — `handle_general_questions` raises
`NameError` (missing `import random`) instead of returning a member of
`fallback_responses`. -/
theorem general_fallback_raises_name_error :
    handle_general_questions
        ⟨true, true, fun _ => .ok [], fun _ => .ok "",
         fun _ => .error (.modelError "model down")⟩
        "What are your opening hours?" = .error (.nameError "random") ∧
    handle_general_questions
        ⟨true, true, fun _ => .ok [], fun _ => .ok "", fun _ => .ok "   "⟩
        "What are your opening hours?" = .error (.nameError "random") := ⟨rfl, rfl⟩

/-- C7: across any sequence of script runs in one session, the daily-summary
turn (the only turn appended under the `assistant` role: the summary text
or its "no summary available" substitute) occurs at most once in the chat
history. -/
theorem daily_summary_shown_at_most_once (guide : List (String × QueryDetails))
    (runs : List RunInput) :
    summary_turn_count
      ((runs.foldl (display_chat_page guide) init_session).chat_history) ≤ 1 :=
  (foldl_preserves_inv guide runs init_session ⟨fun _ => rfl, by decide⟩).2

/-- C9: the chat-turn sequence is append-only: one full render (summary
block, user input, router response) only appends turns, leaving every
existing turn of the history in place. -/
theorem chat_history_append_only (guide : List (String × QueryDetails))
    (s : Session) (inp : RunInput) :
    ∃ appended, (display_chat_page guide s inp).chat_history =
      s.chat_history ++ appended := by
  obtain ⟨⟨tail, htail, _⟩, _⟩ := chat_input_step_shape guide inp.ctx
    (summary_step inp.ctx.warehouse inp.gemini_api_key s) inp.user_input
  rcases summary_step_shape inp.ctx.warehouse inp.gemini_api_key s with heq | ⟨_, heq⟩
  · refine ⟨tail, ?_⟩
    unfold display_chat_page
    rw [htail, heq]
  · refine ⟨("assistant", summary_turn_text inp.ctx.warehouse) :: tail, ?_⟩
    unfold display_chat_page
    rw [htail, heq]
    simp

end BuffetChatbot
